import Mathlib

/-!
Shallow embedding of `rocketmq.go` from the `aliyun-rocketmq-go` package.

The package is a thin wrapper over the external RocketMQ client library.
The external library is modelled by oracle records (`ProducerLib`,
`ConsumerLib`, `PushConsumerModel`) that supply the outcomes of its
calls; the wrapper's own control flow is translated function by function
from the Go source.  The two package-level singleton variables
(`pushConsumer` and `p`) are modelled by explicit state passing, and the
calls the wrapper makes into the library are recorded as event traces so
that "the factory is invoked at most once" and "Start is never called"
become statements about lists.
-/

/-- `type ConsumeFrom consumer.ConsumeFromWhere`, restricted to the two
constants the package declares (`ConsumeFromLast`, `ConsumeFromFirst`). -/
inductive ConsumeFrom where
  | ConsumeFromLast
  | ConsumeFromFirst
  deriving DecidableEq, Repr

/-- `primitive.Credentials` as used by this package: an access key and a
secret key. -/
structure Credentials where
  AccessKey : String
  SecretKey : String
  deriving DecidableEq, Repr

/-- `RocketHelperOptions`: endpoint, instance id, group id, initial
consume position, and the credential pair. -/
structure RocketHelperOptions where
  Endpoint : String
  InstanceId : String
  GroupId : String
  ConsumeFrom : ConsumeFrom
  AccessKeyId : String
  AccessKeySecret : String
  deriving DecidableEq, Repr

/-- `(opts *RocketHelperOptions) GetCredentials()`: packs the access-key
id as `AccessKey` and the access-key secret as `SecretKey`. -/
def RocketHelperOptions.GetCredentials (opts : RocketHelperOptions) : Credentials :=
  { AccessKey := opts.AccessKeyId, SecretKey := opts.AccessKeySecret }

/-- `RocketHelper` wraps a pointer to its options. -/
structure RocketHelper where
  opts : RocketHelperOptions
  deriving DecidableEq, Repr

/-- `NewRocketHelper(opts)`. -/
def NewRocketHelper (opts : RocketHelperOptions) : RocketHelper :=
  { opts := opts }

/-- `consumer.MessageModel`; `CreatePushConsumer` always picks
`Clustering`. -/
inductive MessageModel where
  | BroadCasting
  | Clustering
  deriving DecidableEq, Repr

/-- The option set `CreatePushConsumer` passes to
`rocketmq.NewPushConsumer`, one field per `consumer.With...` option. -/
structure ConsumerConfig where
  NameServer : List String
  Namespace : String
  Instance : String
  GroupName : String
  Credentials : Credentials
  ConsumerModel : MessageModel
  ConsumeFromWhere : ConsumeFrom
  ConsumerOrder : Bool
  deriving DecidableEq, Repr

/-- The options built inside `CreatePushConsumer` (source lines 55-64). -/
def consumerConfig (opts : RocketHelperOptions) : ConsumerConfig :=
  { NameServer := [opts.Endpoint],
    Namespace := opts.InstanceId,
    Instance := opts.InstanceId,
    GroupName := opts.GroupId,
    Credentials := opts.GetCredentials,
    ConsumerModel := MessageModel.Clustering,
    ConsumeFromWhere := opts.ConsumeFrom,
    ConsumerOrder := true }

/-- Calls the wrapper makes into the consumer side of the library:
`rocketmq.NewPushConsumer` (`create`), `Subscribe`, `Start`. -/
inductive ConsumerEvent where
  | create
  | subscribe
  | start
  deriving DecidableEq, Repr

/-- Calls the wrapper makes into the producer side of the library:
`rocketmq.NewProducer` and `Start`. -/
inductive ProducerEvent where
  | newProducer
  | start
  deriving DecidableEq, Repr

/-- Oracle for the external `rocketmq.NewPushConsumer` constructor: for a
given option set it either yields a consumer handle or fails. -/
structure ConsumerLib (C E : Type) where
  newPushConsumer : ConsumerConfig → Except E C

/-- `(rh *RocketHelper) CreatePushConsumer()` (source lines 46-65): logs,
then delegates to `rocketmq.NewPushConsumer` with the option set of
`consumerConfig`.  The construction never starts the client, which the
event trace records. -/
def RocketHelper.CreatePushConsumer {C E : Type} (lib : ConsumerLib C E)
    (rh : RocketHelper) : Except E C × List ConsumerEvent :=
  (lib.newPushConsumer (consumerConfig rh.opts), [ConsumerEvent.create])

/-- Result of one call to a lazy singleton accessor: the returned handle,
the returned error, the value of the package-level cache variable after
the call, and the library calls made during the call. -/
structure AccessorResult (H E Ev : Type) where
  ret : Option H
  err : Option E
  cache : Option H
  events : List Ev
  deriving DecidableEq, Repr

/-- `(rh *RocketHelper) getPushConsumer()` (source lines 69-78) with the
package-level variable `pushConsumer` passed in as `st`. -/
def RocketHelper.getPushConsumer {C E : Type} (lib : ConsumerLib C E)
    (rh : RocketHelper) (st : Option C) : AccessorResult C E ConsumerEvent :=
  match st with
  | some c => { ret := some c, err := none, cache := some c, events := [] }
  | none =>
    match rh.CreatePushConsumer lib with
    | (Except.error e, evs) => { ret := none, err := some e, cache := none, events := evs }
    | (Except.ok c, evs) => { ret := some c, err := none, cache := some c, events := evs }

/-- `primitive.Access`; the trace config always uses `Cloud`. -/
inductive AccessType where
  | Local
  | Cloud
  deriving DecidableEq, Repr

/-- `primitive.TraceConfig` as filled in by `NewProducer`. -/
structure TraceConfig where
  GroupName : String
  Access : AccessType
  NamesrvAddrs : List String
  Credentials : Credentials
  deriving DecidableEq, Repr

/-- The option set `NewProducer` passes to `rocketmq.NewProducer`, one
field per `producer.With...` option. -/
structure ProducerConfig where
  NameServer : List String
  Namespace : String
  InstanceName : String
  GroupName : String
  Credentials : Credentials
  Trace : TraceConfig
  deriving DecidableEq, Repr

/-- The options built inside `NewProducer` (source lines 131-144). -/
def producerConfig (opts : RocketHelperOptions) : ProducerConfig :=
  { NameServer := [opts.Endpoint],
    Namespace := opts.InstanceId,
    InstanceName := opts.InstanceId,
    GroupName := opts.GroupId,
    Credentials := opts.GetCredentials,
    Trace := { GroupName := opts.GroupId,
               Access := AccessType.Cloud,
               NamesrvAddrs := [opts.Endpoint],
               Credentials := opts.GetCredentials } }

/-- Oracle for the external producer side: the outcome of
`rocketmq.NewProducer` on a given option set and the outcome of
`Start` on a given handle. -/
structure ProducerLib (P E : Type) where
  newProducer : ProducerConfig → Except E P
  start : P → Option E

/-- `(rh *RocketHelper) NewProducer()` (source lines 124-151).  Go
returns the pair `(p, err)`; on a construction error this is
`(nil, err)`, while on a `Start` error it is the constructed handle
together with the start error (`err = p.Start(); return p, err`). -/
def RocketHelper.NewProducer {P E : Type} (lib : ProducerLib P E)
    (rh : RocketHelper) : (Option P × Option E) × List ProducerEvent :=
  match lib.newProducer (producerConfig rh.opts) with
  | Except.error e => ((none, some e), [ProducerEvent.newProducer])
  | Except.ok pr =>
    ((some pr, lib.start pr), [ProducerEvent.newProducer, ProducerEvent.start])

/-- `(rh *RocketHelper) getProducer()` (source lines 165-174) with the
package-level variable `p` passed in as `st`.  Note the Go assignment
`p, err = rh.NewProducer()` stores the returned handle in the package
variable even when `err != nil`. -/
def RocketHelper.getProducer {P E : Type} (lib : ProducerLib P E)
    (rh : RocketHelper) (st : Option P) : AccessorResult P E ProducerEvent :=
  match st with
  | some pr => { ret := some pr, err := none, cache := some pr, events := [] }
  | none =>
    match rh.NewProducer lib with
    | ((pNew, some e), evs) => { ret := none, err := some e, cache := pNew, events := evs }
    | ((pNew, none), evs) => { ret := pNew, err := none, cache := pNew, events := evs }

/-- `consumer.ConsumeResult`, restricted to the two values the handler
returns. -/
inductive ConsumeResult where
  | ConsumeSuccess
  | ConsumeRetryLater
  deriving DecidableEq, Repr

/-- The anonymous batch handler `PushConsumeByConsumer` registers with
`Subscribe` (source lines 84-105): it walks the batch in order, returns
`(ConsumeRetryLater, err)` as soon as `onMessage` fails, and
`(ConsumeSuccess, nil)` when every message succeeds.  The second
component of the result records, in order, the messages on which
`onMessage` was invoked. -/
def subscriptionHandler {Msg E : Type} (onMessage : Msg → Option E) :
    List Msg → (ConsumeResult × Option E) × List Msg
  | [] => ((ConsumeResult.ConsumeSuccess, none), [])
  | m :: ms =>
    match onMessage m with
    | some e => ((ConsumeResult.ConsumeRetryLater, some e), [m])
    | none =>
      let r := subscriptionHandler onMessage ms
      (r.1, m :: r.2)

/-- `consumer.ExpressionType`. -/
inductive ExpressionType where
  | TAG
  | SQL92
  deriving DecidableEq, Repr

/-- `consumer.MessageSelector` (its Go field `Type` is rendered
`selType`). -/
structure MessageSelector where
  selType : ExpressionType
  Expression : String
  deriving DecidableEq, Repr

/-- Oracle for a push-consumer handle as used by `PushConsumeByConsumer`:
the error, if any, that `Subscribe` reports for a topic and selector, and
the error, if any, that `Start` reports. -/
structure PushConsumerModel (E : Type) where
  subscribeResult : String → MessageSelector → Option E
  startResult : Option E

/-- `(rh *RocketHelper) PushConsumeByConsumer(...)` (source lines
80-111): subscribe with the batch handler, return the subscribe error if
any, otherwise start the consumer and return the start outcome.  The
result also carries the event trace and the batch handler that was
registered. -/
def RocketHelper.PushConsumeByConsumer {Msg E : Type} (c : PushConsumerModel E)
    (rh : RocketHelper) (topic : String) (selector : MessageSelector)
    (onMessage : Msg → Option E) :
    (Option E × List ConsumerEvent) × (List Msg → ConsumeResult × Option E) :=
  let handler := fun msgs => (subscriptionHandler onMessage msgs).1
  match c.subscribeResult topic selector with
  | some e => ((some e, [ConsumerEvent.subscribe]), handler)
  | none => ((c.startResult, [ConsumerEvent.subscribe, ConsumerEvent.start]), handler)

/-- `primitive.Message`, restricted to the parts this package sets:
topic, body, and the tag / keys / user-property parts of the envelope. -/
structure Message where
  Topic : String
  Body : List UInt8
  tag : String
  keys : List String
  properties : List (String × String)
  deriving DecidableEq, Repr

/-- `msg.WithProperties(props)`. -/
def Message.WithProperties (m : Message) (props : List (String × String)) : Message :=
  { m with properties := props }

/-- `msg.WithTag(tag)`. -/
def Message.WithTag (m : Message) (t : String) : Message :=
  { m with tag := t }

/-- `msg.WithKeys(keys)`. -/
def Message.WithKeys (m : Message) (ks : List String) : Message :=
  { m with keys := ks }

/-- `(rh *RocketHelper) CreatePublicMessage(...)` (source lines
153-161): build the envelope from topic and body, then attach
properties, tag and keys. -/
def RocketHelper.CreatePublicMessage (rh : RocketHelper) (topic : String)
    (body : List UInt8) (tag : String) (keys : List String)
    (properties : List (String × String)) : Message :=
  let msg : Message :=
    { Topic := topic, Body := body, tag := "", keys := [], properties := [] }
  let msg := msg.WithProperties properties
  (msg.WithTag tag).WithKeys keys

/-- A concrete option record for witnesses. -/
def opts0 : RocketHelperOptions :=
  { Endpoint := "ep", InstanceId := "inst", GroupId := "grp",
    ConsumeFrom := ConsumeFrom.ConsumeFromLast,
    AccessKeyId := "ak", AccessKeySecret := "sk" }

/-- A concrete helper for witnesses. -/
def rh0 : RocketHelper := NewRocketHelper opts0

/-- C5: `GetCredentials` returns exactly the stored pair, the access-key
id as the access key and the access-key secret as the secret key, and
being a pure projection it modifies nothing. -/
theorem C5_getCredentials_exact (opts : RocketHelperOptions) :
    opts.GetCredentials =
      { AccessKey := opts.AccessKeyId, SecretKey := opts.AccessKeySecret } :=
  rfl

/-- C6: the message built by `CreatePublicMessage` has topic, body, tag,
keys and properties equal to the inputs exactly. -/
theorem C6_createPublicMessage_roundtrip (rh : RocketHelper) (topic : String)
    (body : List UInt8) (tag : String) (keys : List String)
    (properties : List (String × String)) :
    rh.CreatePublicMessage topic body tag keys properties =
      { Topic := topic, Body := body, tag := tag, keys := keys,
        properties := properties } :=
  rfl

/-- C9: `CreatePushConsumer` hands the library exactly the option set of
`consumerConfig`, which always requests the clustered consumer model and
ordered delivery, and carries the configuration's consume-from position,
endpoint, namespace, group and credentials. -/
theorem C9_consumer_configuration {C E : Type} (lib : ConsumerLib C E)
    (rh : RocketHelper) :
    (rh.CreatePushConsumer lib).1 = lib.newPushConsumer (consumerConfig rh.opts) ∧
    (consumerConfig rh.opts).ConsumerModel = MessageModel.Clustering ∧
    (consumerConfig rh.opts).ConsumerOrder = true ∧
    (consumerConfig rh.opts).ConsumeFromWhere = rh.opts.ConsumeFrom ∧
    (consumerConfig rh.opts).NameServer = [rh.opts.Endpoint] ∧
    (consumerConfig rh.opts).Namespace = rh.opts.InstanceId ∧
    (consumerConfig rh.opts).GroupName = rh.opts.GroupId ∧
    (consumerConfig rh.opts).Credentials = rh.opts.GetCredentials :=
  ⟨rfl, rfl, rfl, rfl, rfl, rfl, rfl, rfl⟩

/-- C7: when every message of the batch processes successfully, the
batch handler returns `(ConsumeSuccess, nil)` once for the whole batch,
and `onMessage` was invoked exactly on the whole batch in order. -/
theorem C7_all_success_batch {Msg E : Type} (onMessage : Msg → Option E)
    (msgs : List Msg) (h : ∀ m ∈ msgs, onMessage m = none) :
    subscriptionHandler onMessage msgs =
      ((ConsumeResult.ConsumeSuccess, none), msgs) := by
  induction msgs with
  | nil => rfl
  | cons m ms ih =>
    have hm : onMessage m = none := h m (List.mem_cons_self m ms)
    have hms : ∀ x ∈ ms, onMessage x = none :=
      fun x hx => h x (List.mem_cons_of_mem m hx)
    simp [subscriptionHandler, hm, ih hms]

/-- Witness for C7 on a concrete three-message batch. -/
theorem C7_all_success_batch_witness :
    subscriptionHandler (fun _ : Nat => (none : Option Nat)) [1, 2, 3] =
      ((ConsumeResult.ConsumeSuccess, none), [1, 2, 3]) :=
  C7_all_success_batch (fun _ => none) [1, 2, 3] (by intro m _; rfl)

/-- C1: in a batch `pre ++ m :: post` whose first failing message is `m`
(every message of `pre` succeeds and `onMessage m = some e`), the batch
handler returns `(ConsumeRetryLater, e)` for the whole batch, and
`onMessage` was invoked exactly on `pre ++ [m]` — never on any message
after the failing one. -/
theorem C1_first_failure_stops_batch {Msg E : Type} (onMessage : Msg → Option E)
    (pre post : List Msg) (m : Msg) (e : E)
    (hpre : ∀ x ∈ pre, onMessage x = none) (hm : onMessage m = some e) :
    subscriptionHandler onMessage (pre ++ m :: post) =
      ((ConsumeResult.ConsumeRetryLater, some e), pre ++ [m]) := by
  induction pre with
  | nil => simp [subscriptionHandler, hm]
  | cons a as ih =>
    have ha : onMessage a = none := hpre a (List.mem_cons_self a as)
    have has : ∀ x ∈ as, onMessage x = none :=
      fun x hx => hpre x (List.mem_cons_of_mem a hx)
    simp [subscriptionHandler, ha, ih has]

/-- Witness for C1: batch `[1, 2, 3]` where message `2` is the first to
fail (with error `9`); message `3` is never processed. -/
theorem C1_first_failure_stops_batch_witness :
    subscriptionHandler (fun n : Nat => if n = 2 then some 9 else none)
        ([1] ++ 2 :: [3]) =
      ((ConsumeResult.ConsumeRetryLater, some 9), [1] ++ [2]) :=
  C1_first_failure_stops_batch (fun n : Nat => if n = 2 then some 9 else none)
    [1] [3] 2 9 (by decide) (by decide)

/-- C4: `NewProducer` forwards the outcome of the underlying library
unmodified: a construction error is returned as-is with no handle and no
retry (exactly one `NewProducer` library call); on successful
construction the constructed handle is returned together with the exact
outcome of `Start`, again with exactly one construction call. -/
theorem C4_newProducer_passthrough {P E : Type} (lib : ProducerLib P E)
    (rh : RocketHelper) :
    (∀ e, lib.newProducer (producerConfig rh.opts) = Except.error e →
      rh.NewProducer lib = ((none, some e), [ProducerEvent.newProducer])) ∧
    (∀ pr, lib.newProducer (producerConfig rh.opts) = Except.ok pr →
      rh.NewProducer lib =
        ((some pr, lib.start pr),
          [ProducerEvent.newProducer, ProducerEvent.start])) ∧
    List.count ProducerEvent.newProducer (rh.NewProducer lib).2 = 1 := by
  refine ⟨fun e he => ?_, fun pr hpr => ?_, ?_⟩
  · simp [RocketHelper.NewProducer, he]
  · simp [RocketHelper.NewProducer, hpr]
  · cases h : lib.newProducer (producerConfig rh.opts) with
    | error e => simp [RocketHelper.NewProducer, h]
    | ok pr => simp [RocketHelper.NewProducer, h]

/-- Witness for C4 on a concrete library whose construction succeeds with
handle `5` and whose `Start` succeeds. -/
theorem C4_newProducer_passthrough_witness :
    RocketHelper.NewProducer
        (⟨fun _ => Except.ok 5, fun _ => (none : Option Nat)⟩ : ProducerLib Nat Nat)
        rh0 =
      ((some 5, none), [ProducerEvent.newProducer, ProducerEvent.start]) :=
  (C4_newProducer_passthrough
    (⟨fun _ => Except.ok 5, fun _ => (none : Option Nat)⟩ : ProducerLib Nat Nat)
    rh0).2.1 5 rfl

/-- C8: consumer construction makes no `Start` call; `PushConsumeByConsumer`
subscribes first, returns any subscribe error without ever calling
`Start`, and only on a successful subscribe calls `Start` (the trace
places `subscribe` strictly before `start`). -/
theorem C8_subscribe_before_start {Msg C E : Type} (clib : ConsumerLib C E)
    (c : PushConsumerModel E) (rh : RocketHelper) (topic : String)
    (sel : MessageSelector) (onMessage : Msg → Option E) :
    ConsumerEvent.start ∉ (rh.CreatePushConsumer clib).2 ∧
    (∀ e, c.subscribeResult topic sel = some e →
      (rh.PushConsumeByConsumer c topic sel onMessage).1 =
        (some e, [ConsumerEvent.subscribe])) ∧
    (c.subscribeResult topic sel = none →
      (rh.PushConsumeByConsumer c topic sel onMessage).1 =
        (c.startResult, [ConsumerEvent.subscribe, ConsumerEvent.start])) := by
  refine ⟨?_, fun e he => ?_, fun hn => ?_⟩
  · simp [RocketHelper.CreatePushConsumer]
  · simp [RocketHelper.PushConsumeByConsumer, he]
  · simp [RocketHelper.PushConsumeByConsumer, hn]

/-- Witness for C8: a consumer whose `Subscribe` fails with error `3`;
the error comes back and `Start` is not in the trace. -/
theorem C8_subscribe_before_start_witness :
    (rh0.PushConsumeByConsumer
        (⟨fun _ _ => some 3, none⟩ : PushConsumerModel Nat) "t"
        ⟨ExpressionType.TAG, "x"⟩ (fun _ : Nat => (none : Option Nat))).1 =
      (some 3, [ConsumerEvent.subscribe]) :=
  (C8_subscribe_before_start (⟨fun _ => Except.ok 7⟩ : ConsumerLib Nat Nat)
    (⟨fun _ _ => some 3, none⟩ : PushConsumerModel Nat) rh0 "t"
    ⟨ExpressionType.TAG, "x"⟩ (fun _ : Nat => (none : Option Nat))).2.1 3 rfl

/-- C3: after a successful first call, a second call to either lazy
accessor returns the identical cached instance, makes no library call,
and across the two calls the factory was invoked at most once. -/
theorem C3_accessor_memoizes {P C E : Type} (plib : ProducerLib P E)
    (clib : ConsumerLib C E) (rh : RocketHelper)
    (hp : (rh.getProducer plib none).err = none)
    (hc : (rh.getPushConsumer clib none).err = none) :
    ((rh.getProducer plib (rh.getProducer plib none).cache).ret =
        (rh.getProducer plib none).ret ∧
      (rh.getProducer plib none).ret.isSome = true ∧
      (rh.getProducer plib (rh.getProducer plib none).cache).events = [] ∧
      List.count ProducerEvent.newProducer
        ((rh.getProducer plib none).events ++
          (rh.getProducer plib (rh.getProducer plib none).cache).events) ≤ 1) ∧
    ((rh.getPushConsumer clib (rh.getPushConsumer clib none).cache).ret =
        (rh.getPushConsumer clib none).ret ∧
      (rh.getPushConsumer clib none).ret.isSome = true ∧
      (rh.getPushConsumer clib (rh.getPushConsumer clib none).cache).events = [] ∧
      List.count ConsumerEvent.create
        ((rh.getPushConsumer clib none).events ++
          (rh.getPushConsumer clib (rh.getPushConsumer clib none).cache).events) ≤ 1) := by
  constructor
  · cases h1 : plib.newProducer (producerConfig rh.opts) with
    | error e =>
      exfalso
      simp [RocketHelper.getProducer, RocketHelper.NewProducer, h1] at hp
    | ok pr =>
      cases h2 : plib.start pr with
      | some e =>
        exfalso
        simp [RocketHelper.getProducer, RocketHelper.NewProducer, h1, h2] at hp
      | none =>
        simp [RocketHelper.getProducer, RocketHelper.NewProducer, h1, h2,
          List.count_cons]
  · cases h1 : clib.newPushConsumer (consumerConfig rh.opts) with
    | error e =>
      exfalso
      simp [RocketHelper.getPushConsumer, RocketHelper.CreatePushConsumer, h1] at hc
    | ok cc =>
      simp [RocketHelper.getPushConsumer, RocketHelper.CreatePushConsumer, h1,
        List.count_cons]

/-- A producer library whose construction yields handle `5` and whose
`Start` succeeds. -/
def plibOk : ProducerLib Nat Nat := ⟨fun _ => Except.ok 5, fun _ => none⟩

/-- A consumer library whose construction yields handle `7`. -/
def clibOk : ConsumerLib Nat Nat := ⟨fun _ => Except.ok 7⟩

/-- Witness for C3 on concrete always-succeeding libraries. -/
theorem C3_accessor_memoizes_witness :
    (rh0.getProducer plibOk none).err = none ∧
    (rh0.getPushConsumer clibOk none).err = none ∧
    (rh0.getProducer plibOk (rh0.getProducer plibOk none).cache).ret =
      (rh0.getProducer plibOk none).ret ∧
    (rh0.getPushConsumer clibOk (rh0.getPushConsumer clibOk none).cache).ret =
      (rh0.getPushConsumer clibOk none).ret :=
  ⟨rfl, rfl, (C3_accessor_memoizes plibOk clibOk rh0 rfl rfl).1.1,
    (C3_accessor_memoizes plibOk clibOk rh0 rfl rfl).2.1⟩

/-- C10: the singleton caches are package-level, not per-helper.  Once a
first helper's successful call has populated a cache, calling the same
accessor through ANY other helper — with any other options and any other
library behaviour — returns the same cached instance and makes no
library call at all, so the second helper's options are never used. -/
theorem C10_shared_package_cache {P C E : Type} (plibA plibB : ProducerLib P E)
    (clibA clibB : ConsumerLib C E) (rhA rhB : RocketHelper)
    (hp : (rhA.getProducer plibA none).err = none)
    (hc : (rhA.getPushConsumer clibA none).err = none) :
    rhB.getProducer plibB (rhA.getProducer plibA none).cache =
      { ret := (rhA.getProducer plibA none).ret, err := none,
        cache := (rhA.getProducer plibA none).cache, events := [] } ∧
    rhB.getPushConsumer clibB (rhA.getPushConsumer clibA none).cache =
      { ret := (rhA.getPushConsumer clibA none).ret, err := none,
        cache := (rhA.getPushConsumer clibA none).cache, events := [] } := by
  constructor
  · cases h1 : plibA.newProducer (producerConfig rhA.opts) with
    | error e =>
      exfalso
      simp [RocketHelper.getProducer, RocketHelper.NewProducer, h1] at hp
    | ok pr =>
      cases h2 : plibA.start pr with
      | some e =>
        exfalso
        simp [RocketHelper.getProducer, RocketHelper.NewProducer, h1, h2] at hp
      | none =>
        simp [RocketHelper.getProducer, RocketHelper.NewProducer, h1, h2]
  · cases h1 : clibA.newPushConsumer (consumerConfig rhA.opts) with
    | error e =>
      exfalso
      simp [RocketHelper.getPushConsumer, RocketHelper.CreatePushConsumer, h1] at hc
    | ok cc =>
      simp [RocketHelper.getPushConsumer, RocketHelper.CreatePushConsumer, h1]

/-- A second, differently-configured helper for the C10 witness. -/
def rhAlt : RocketHelper :=
  NewRocketHelper
    { Endpoint := "ep2", InstanceId := "inst2", GroupId := "grp2",
      ConsumeFrom := ConsumeFrom.ConsumeFromFirst,
      AccessKeyId := "ak2", AccessKeySecret := "sk2" }

/-- A producer library that always fails, for the C10 witness: it is
never consulted on the warmed cache. -/
def plibAlt : ProducerLib Nat Nat := ⟨fun _ => Except.error 99, fun _ => some 99⟩

/-- A consumer library that always fails, for the C10 witness. -/
def clibAlt : ConsumerLib Nat Nat := ⟨fun _ => Except.error 99⟩

/-- Witness for C10: helper `rh0` warms both caches; the
differently-configured helper `rhAlt`, paired with libraries that would
fail if invoked, still gets the cached instances back untouched. -/
theorem C10_shared_package_cache_witness :
    (rh0.getProducer plibOk none).err = none ∧
    (rh0.getPushConsumer clibOk none).err = none ∧
    rhAlt.getProducer plibAlt (rh0.getProducer plibOk none).cache =
      { ret := (rh0.getProducer plibOk none).ret, err := none,
        cache := (rh0.getProducer plibOk none).cache, events := [] } ∧
    rhAlt.getPushConsumer clibAlt (rh0.getPushConsumer clibOk none).cache =
      { ret := (rh0.getPushConsumer clibOk none).ret, err := none,
        cache := (rh0.getPushConsumer clibOk none).cache, events := [] } :=
  ⟨rfl, rfl,
    (C10_shared_package_cache plibOk plibAlt clibOk clibAlt rh0 rhAlt rfl rfl).1,
    (C10_shared_package_cache plibOk plibAlt clibOk clibAlt rh0 rhAlt rfl rfl).2⟩

/-- A producer library whose construction yields handle `0` but whose
`Start` fails with error `7`: the scenario that refutes C2 as stated. -/
def plibStartFails : ProducerLib Nat Nat := ⟨fun _ => Except.ok 0, fun _ => some 7⟩

/-- C2 counterexample: the first `getProducer` call returns error `7`
(a failed construction-or-start attempt), yet the package-level cache is
NOT empty — it holds the constructed-but-unstarted handle — and the next
call returns that stale handle with a nil error while making no library
call at all, instead of invoking the factory again. -/
theorem C2_cache_after_failure_counterexample :
    (rh0.getProducer plibStartFails none).err = some 7 ∧
    (rh0.getProducer plibStartFails none).cache ≠ none ∧
    rh0.getProducer plibStartFails (rh0.getProducer plibStartFails none).cache =
      { ret := some 0, err := none, cache := some 0, events := [] } := by
  refine ⟨rfl, fun h => ?_, rfl⟩
  rw [show (rh0.getProducer plibStartFails none).cache = some 0 from rfl] at h
  exact Option.noConfusion h

/-- C2 amended: if the underlying constructor itself fails, the cache
stays empty and the error surfaces, so the next accessor call invokes
the factory again; but if construction succeeds and `Start` fails, the
accessor returns the error while caching the constructed handle, and the
next call returns that stale handle without invoking the factory. -/
theorem C2_amended_cache_after_failure {P E : Type} (lib : ProducerLib P E)
    (rh : RocketHelper) :
    (∀ e, lib.newProducer (producerConfig rh.opts) = Except.error e →
      rh.getProducer lib none =
        { ret := none, err := some e, cache := none,
          events := [ProducerEvent.newProducer] } ∧
      (rh.getProducer lib (rh.getProducer lib none).cache).events =
        [ProducerEvent.newProducer]) ∧
    (∀ pr e, lib.newProducer (producerConfig rh.opts) = Except.ok pr →
      lib.start pr = some e →
      rh.getProducer lib none =
        { ret := none, err := some e, cache := some pr,
          events := [ProducerEvent.newProducer, ProducerEvent.start] } ∧
      rh.getProducer lib (rh.getProducer lib none).cache =
        { ret := some pr, err := none, cache := some pr, events := [] }) := by
  refine ⟨fun e he => ⟨?_, ?_⟩, fun pr e hpr hst => ⟨?_, ?_⟩⟩
  · simp [RocketHelper.getProducer, RocketHelper.NewProducer, he]
  · simp [RocketHelper.getProducer, RocketHelper.NewProducer, he]
  · simp [RocketHelper.getProducer, RocketHelper.NewProducer, hpr, hst]
  · simp [RocketHelper.getProducer, RocketHelper.NewProducer, hpr, hst]

/-- A producer library whose construction itself fails with error `3`. -/
def plibCtorFails : ProducerLib Nat Nat := ⟨fun _ => Except.error 3, fun _ => none⟩

/-- Witness for the amended C2: a construction failure leaves the cache
empty and the retry invokes the factory once more. -/
theorem C2_amended_cache_after_failure_witness :
    rh0.getProducer plibCtorFails none =
      { ret := none, err := some 3, cache := none,
        events := [ProducerEvent.newProducer] } ∧
    (rh0.getProducer plibCtorFails
        (rh0.getProducer plibCtorFails none).cache).events =
      [ProducerEvent.newProducer] :=
  (C2_amended_cache_after_failure plibCtorFails rh0).1 3 rfl
